/-
Verification of `@umituz/react-native-design-system-responsive`.

Shallow embedding of the responsive sizing library:
  * `src/validation.ts`     — `validateNumber`, `validateFontSize`,
    `validateScreenDimensions`, `validateSafeAreaInsets`, `clamp`,
    `safePercentage`;
  * `src/config.ts`         — the breakpoint / percentage / constraint tables;
  * `src/deviceDetection.ts` — `getScreenDimensions`, `isTablet`;
  * `src/responsiveSizing.ts` — the seven public sizing functions;
  * the layout module's `getResponsiveFABPosition`.

Modelling choices:
  * A JavaScript `number`-or-`undefined` argument is modelled by `JSNum`:
    `undefined`, `NaN`, the two infinities, or a finite value carried as a
    rational (`ℚ`).  All arithmetic the library performs on validated finite
    inputs (multiplication by fixed decimal factors, `min`/`max`, addition)
    is exact over ℚ; IEEE-754 rounding is not modelled.
  * A TypeScript `throw` inside the `try` block of a sizing function is
    modelled by `Except String`; the surrounding `catch` is the `.error`
    branch of the outer `match`, which returns the documented fallback.
  * `Dimensions.get('window')` is modelled by passing the raw reported
    dimensions (`RawDims`, a pair of `JSNum`) explicitly to every function
    that reads the screen size.
  * A TypeScript parameter default (`baseSize: number = 140`) replaces an
    explicitly-undefined argument before the function body runs; this is
    modelled by applying `JSNum.orDefault` to the argument ahead of
    validation.  `getResponsiveFontSize` declares no default, so an
    undefined font size reaches validation and fails there.
-/
import Mathlib

namespace DesignSystemResponsive

/-- A JavaScript numeric value as the validation layer distinguishes them:
`undefined`/`null`, `NaN`, `+Infinity`, `-Infinity`, or a finite number
(modelled exactly as a rational). -/
inductive JSNum where
  | undef : JSNum
  | nan : JSNum
  | posInf : JSNum
  | negInf : JSNum
  | num (q : ℚ) : JSNum
deriving DecidableEq

/-- JS destructuring default `{ x = 0 } = obj`: replaces `undefined` by the
default, leaves every other value alone. -/
def JSNum.orDefault (v : JSNum) (d : ℚ) : JSNum :=
  match v with
  | .undef => .num d
  | x => x

/-- Extract the finite value, with a default for the non-finite cases (used
only where validation has already ruled those out). -/
def JSNum.valueOr (v : JSNum) (d : ℚ) : ℚ :=
  match v with
  | .num q => q
  | _ => d

/-- Success test on an `Except` result: did the validated computation succeed? -/
def isOk {ε α : Type} : Except ε α → Bool
  | .ok _ => true
  | .error _ => false

/-! Constant tables from `src/config.ts`. -/

namespace DEVICE_BREAKPOINTS

def SMALL_PHONE : ℚ := 375

def MEDIUM_PHONE : ℚ := 414

def LARGE_PHONE : ℚ := 428

def SMALL_TABLET : ℚ := 768

def TABLET : ℚ := 1024

end DEVICE_BREAKPOINTS

namespace RESPONSIVE_PERCENTAGES

def LOGO_SMALL_PHONE_MAX : ℚ := 28/100

def LOGO_TABLET_MAX : ℚ := 15/100

def ICON_CONTAINER_SMALL_PHONE : ℚ := 30/100

def ICON_CONTAINER_TABLET : ℚ := 20/100

def CONTENT_SMALL_PHONE : ℚ := 90/100

def CONTENT_PHONE : ℚ := 85/100

def CONTENT_TABLET : ℚ := 60/100

def INPUT_SMALL_DEVICE : ℚ := 15/100

def INPUT_MEDIUM_DEVICE : ℚ := 18/100

def FONT_SMALL_PHONE : ℚ := 90/100

def FONT_TABLET : ℚ := 110/100

end RESPONSIVE_PERCENTAGES

namespace SIZE_CONSTRAINTS

def LOGO_MIN_SMALL : ℚ := 100

def LOGO_MAX_SMALL : ℚ := 120

def LOGO_MIN_TABLET : ℚ := 140

def LOGO_MAX_TABLET : ℚ := 200

def INPUT_MAX_SMALL : ℚ := 120

def INPUT_MAX_MEDIUM : ℚ := 150

def INPUT_MAX_LARGE : ℚ := 200

def ICON_MAX_SMALL : ℚ := 120

def ICON_MAX_TABLET : ℚ := 180

def CONTENT_MAX_TABLET : ℚ := 600

def FONT_MIN_SIZE : ℚ := 11

end SIZE_CONSTRAINTS

namespace LAYOUT_CONSTANTS

def HORIZONTAL_PADDING_BASE : ℚ := 16

def SAFE_AREA_OFFSET : ℚ := 16

def TAB_BAR_OFFSET : ℚ := 90

def FAB_BOTTOM_TABLET : ℚ := 100

def FAB_RIGHT_TABLET : ℚ := 24

def FAB_RIGHT_PHONE : ℚ := 20

end LAYOUT_CONSTANTS

namespace HEIGHT_THRESHOLDS

def SMALL_DEVICE : ℚ := 667

def MEDIUM_DEVICE : ℚ := 844

def LARGE_DEVICE : ℚ := 1024

end HEIGHT_THRESHOLDS

namespace GRID_CONFIG

def DEFAULT_MOBILE_COLUMNS : ℚ := 2

def DEFAULT_TABLET_COLUMNS : ℚ := 4

end GRID_CONFIG

namespace VALIDATION_CONSTRAINTS

def MIN_BASE_SIZE : ℚ := 0

def MAX_BASE_SIZE : ℚ := 10000

def MIN_BASE_FONT_SIZE : ℚ := 1

def MAX_BASE_FONT_SIZE : ℚ := 1000

def MIN_SCREEN_DIMENSION : ℚ := 100

def MAX_SCREEN_DIMENSION : ℚ := 10000

end VALIDATION_CONSTRAINTS

/-! Validation layer from `src/validation.ts`. -/

/-- Model of `validateNumber` from `src/validation.ts`.  The upper bound is an
`Option ℚ`: `none` models the JavaScript `Infinity` bound that
`safePercentage` passes (the `value > max` test can then never fire).
Throwing `ResponsiveValidationError` is modelled as `Except.error` with the
error message. -/
def validateNumber (value : JSNum) (lo : ℚ) (hi : Option ℚ) : Except String ℚ :=
  match value with
  | .undef => .error "is required"
  | .nan => .error "must be a valid number"
  | .posInf => .error "must be a finite number"
  | .negInf => .error "must be a finite number"
  | .num q =>
    if q < lo then .error "must be at least min"
    else
      match hi with
      | some h => if h < q then .error "must be at most max" else .ok q
      | none => .ok q

/-- Model of `validateFontSize` from `src/validation.ts`. -/
def validateFontSize (fontSize : JSNum) : Except String ℚ :=
  validateNumber fontSize VALIDATION_CONSTRAINTS.MIN_BASE_FONT_SIZE
    (some VALIDATION_CONSTRAINTS.MAX_BASE_FONT_SIZE)

/-- Model of `validateScreenDimensions` from `src/validation.ts`: validates width then
height against `[MIN_SCREEN_DIMENSION, MAX_SCREEN_DIMENSION]`. -/
def validateScreenDimensions (width height : JSNum) : Except String Unit :=
  match validateNumber width VALIDATION_CONSTRAINTS.MIN_SCREEN_DIMENSION
      (some VALIDATION_CONSTRAINTS.MAX_SCREEN_DIMENSION) with
  | .error e => .error e
  | .ok _ =>
    match validateNumber height VALIDATION_CONSTRAINTS.MIN_SCREEN_DIMENSION
        (some VALIDATION_CONSTRAINTS.MAX_SCREEN_DIMENSION) with
    | .error e => .error e
    | .ok _ => .ok ()

/-- Safe-area insets as passed to `getResponsiveFABPosition`: each field is a
JS value that may be `undefined` (destructuring then defaults it to 0). -/
structure RawInsets where
  top : JSNum
  bottom : JSNum
  left : JSNum
  right : JSNum
deriving DecidableEq

/-- Model of `validateSafeAreaInsets` from `src/validation.ts`: destructures with
default 0 and validates each of the four insets against `[0, 1000]`. -/
def validateSafeAreaInsets (insets : RawInsets) : Except String Unit :=
  match validateNumber (insets.top.orDefault 0) 0 (some 1000) with
  | .error e => .error e
  | .ok _ =>
    match validateNumber (insets.bottom.orDefault 0) 0 (some 1000) with
    | .error e => .error e
    | .ok _ =>
      match validateNumber (insets.left.orDefault 0) 0 (some 1000) with
      | .error e => .error e
      | .ok _ =>
        match validateNumber (insets.right.orDefault 0) 0 (some 1000) with
        | .error e => .error e
        | .ok _ => .ok ()

/-- Model of `clamp` from `src/validation.ts`: `Math.min(Math.max(value, min), max)`. -/
def clamp (value lo hi : ℚ) : ℚ :=
  min (max value lo) hi

/-- Model of `safePercentage` from `src/validation.ts`: validates `value` against
`[0, Infinity]` (the infinite upper bound is `none`), clamps the percentage
to `[0, 1]`, and multiplies. -/
def safePercentage (value percentage : ℚ) : Except String ℚ :=
  match validateNumber (.num value) 0 none with
  | .error e => .error e
  | .ok validatedValue => .ok (validatedValue * clamp percentage 0 1)

/-! Device detection from `src/deviceDetection.ts`. -/

/-- The raw window dimensions reported by the platform
(`Dimensions.get('window')`), before any validation. -/
structure RawDims where
  width : JSNum
  height : JSNum
deriving DecidableEq

/-- Validated screen dimensions, as returned by `getScreenDimensions`. -/
structure ScreenDims where
  width : ℚ
  height : ℚ
deriving DecidableEq

/-- Model of `getScreenDimensions` from `src/deviceDetection.ts`: returns the reported
window dimensions when they pass `validateScreenDimensions`, and the fixed
fallback `{width: 414, height: 896}` otherwise.  When validation succeeds
both raw values are `JSNum.num`, so the defaults in `valueOr` are never
taken. -/
def getScreenDimensions (d : RawDims) : ScreenDims :=
  match validateScreenDimensions d.width d.height with
  | .ok _ => ⟨d.width.valueOr 414, d.height.valueOr 896⟩
  | .error _ => ⟨414, 896⟩

/-- Model of `isTablet` from `src/deviceDetection.ts`: width at least
`SMALL_TABLET` (768).  `getScreenDimensions` handles invalid dimensions
internally, so the surrounding try/catch never fires. -/
def isTablet (d : RawDims) : Bool :=
  decide (DEVICE_BREAKPOINTS.SMALL_TABLET ≤ (getScreenDimensions d).width)

/-! Sizing functions from `src/responsiveSizing.ts`.

Each function is a `try` block whose throws (`Except.error`) are caught and
replaced by the documented fallback; the outer `match` is the `catch`. -/

/-- Model of `getResponsiveLogoSize` from `src/responsiveSizing.ts`.  The
parameter default `baseSize = 140` substitutes for an undefined argument
before validation.  Fallback 140. -/
def getResponsiveLogoSize (baseSize : JSNum) (d : RawDims) : ℚ :=
  match validateNumber (baseSize.orDefault 140) 50 (some 500) with
  | .error _ => 140
  | .ok validatedBaseSize =>
    let width := (getScreenDimensions d).width
    if width ≤ DEVICE_BREAKPOINTS.SMALL_PHONE then
      match safePercentage width RESPONSIVE_PERCENTAGES.LOGO_SMALL_PHONE_MAX with
      | .error _ => 140
      | .ok calculatedSize =>
        clamp calculatedSize SIZE_CONSTRAINTS.LOGO_MIN_SMALL SIZE_CONSTRAINTS.LOGO_MAX_SMALL
    else if DEVICE_BREAKPOINTS.TABLET ≤ width then
      match safePercentage width RESPONSIVE_PERCENTAGES.LOGO_TABLET_MAX with
      | .error _ => 140
      | .ok calculatedSize =>
        clamp calculatedSize SIZE_CONSTRAINTS.LOGO_MIN_TABLET SIZE_CONSTRAINTS.LOGO_MAX_TABLET
    else
      validatedBaseSize

/-- Model of `getResponsiveInputHeight` from `src/responsiveSizing.ts`.  The
parameter default `baseHeight = 200` substitutes for an undefined argument
before validation.  Branches on screen height; fallback 200. -/
def getResponsiveInputHeight (baseHeight : JSNum) (d : RawDims) : ℚ :=
  match validateNumber (baseHeight.orDefault 200) 50 (some 500) with
  | .error _ => 200
  | .ok validatedBaseHeight =>
    let height := (getScreenDimensions d).height
    if height ≤ HEIGHT_THRESHOLDS.SMALL_DEVICE then
      match safePercentage height RESPONSIVE_PERCENTAGES.INPUT_SMALL_DEVICE with
      | .error _ => 200
      | .ok calculatedHeight => min calculatedHeight SIZE_CONSTRAINTS.INPUT_MAX_SMALL
    else if height ≤ HEIGHT_THRESHOLDS.MEDIUM_DEVICE then
      match safePercentage height RESPONSIVE_PERCENTAGES.INPUT_MEDIUM_DEVICE with
      | .error _ => 200
      | .ok calculatedHeight => min calculatedHeight SIZE_CONSTRAINTS.INPUT_MAX_MEDIUM
    else
      min validatedBaseHeight SIZE_CONSTRAINTS.INPUT_MAX_LARGE

/-- Model of `getResponsiveIconContainerSize` from `src/responsiveSizing.ts`.
The parameter default `baseSize = 140` substitutes for an undefined argument
before validation.  Fallback 140. -/
def getResponsiveIconContainerSize (baseSize : JSNum) (d : RawDims) : ℚ :=
  match validateNumber (baseSize.orDefault 140) 50 (some 300) with
  | .error _ => 140
  | .ok validatedBaseSize =>
    let width := (getScreenDimensions d).width
    if width ≤ DEVICE_BREAKPOINTS.SMALL_PHONE then
      match safePercentage width RESPONSIVE_PERCENTAGES.ICON_CONTAINER_SMALL_PHONE with
      | .error _ => 140
      | .ok calculatedSize => min calculatedSize SIZE_CONSTRAINTS.ICON_MAX_SMALL
    else if DEVICE_BREAKPOINTS.TABLET ≤ width then
      match safePercentage width RESPONSIVE_PERCENTAGES.ICON_CONTAINER_TABLET with
      | .error _ => 140
      | .ok calculatedSize => min calculatedSize SIZE_CONSTRAINTS.ICON_MAX_TABLET
    else
      validatedBaseSize

/-- Model of `getResponsiveMaxWidth` from `src/responsiveSizing.ts`.  The
parameter default `baseWidth = 400` substitutes for an undefined argument
before validation.  Fallback 400. -/
def getResponsiveMaxWidth (baseWidth : JSNum) (d : RawDims) : ℚ :=
  match validateNumber (baseWidth.orDefault 400) 100 (some 1000) with
  | .error _ => 400
  | .ok validatedBaseWidth =>
    let width := (getScreenDimensions d).width
    if width ≤ DEVICE_BREAKPOINTS.SMALL_PHONE then
      match safePercentage width RESPONSIVE_PERCENTAGES.CONTENT_SMALL_PHONE with
      | .error _ => 400
      | .ok calculatedWidth => calculatedWidth
    else if DEVICE_BREAKPOINTS.TABLET ≤ width then
      match safePercentage width RESPONSIVE_PERCENTAGES.CONTENT_TABLET with
      | .error _ => 400
      | .ok calculatedWidth => min calculatedWidth SIZE_CONSTRAINTS.CONTENT_MAX_TABLET
    else
      match safePercentage width RESPONSIVE_PERCENTAGES.CONTENT_PHONE with
      | .error _ => 400
      | .ok maxWidth => min maxWidth validatedBaseWidth

/-- Model of `getResponsiveFontSize` from `src/responsiveSizing.ts`.  Fallback 16. -/
def getResponsiveFontSize (baseFontSize : JSNum) (d : RawDims) : ℚ :=
  match validateFontSize baseFontSize with
  | .error _ => 16
  | .ok validatedBaseSize =>
    let width := (getScreenDimensions d).width
    if width ≤ DEVICE_BREAKPOINTS.SMALL_PHONE then
      max (validatedBaseSize * RESPONSIVE_PERCENTAGES.FONT_SMALL_PHONE)
        SIZE_CONSTRAINTS.FONT_MIN_SIZE
    else if DEVICE_BREAKPOINTS.TABLET ≤ width then
      validatedBaseSize * RESPONSIVE_PERCENTAGES.FONT_TABLET
    else
      validatedBaseSize

/-- Model of `getResponsiveGridColumns` from `src/responsiveSizing.ts`.  The
parameter defaults `GRID_CONFIG.DEFAULT_MOBILE_COLUMNS = 2` and
`GRID_CONFIG.DEFAULT_TABLET_COLUMNS = 4` substitute for undefined arguments
before validation.  Fallback 2. -/
def getResponsiveGridColumns (mobileColumns tabletColumns : JSNum) (d : RawDims) : ℚ :=
  match validateNumber (mobileColumns.orDefault GRID_CONFIG.DEFAULT_MOBILE_COLUMNS)
      1 (some 20) with
  | .error _ => 2
  | .ok validatedMobile =>
    match validateNumber (tabletColumns.orDefault GRID_CONFIG.DEFAULT_TABLET_COLUMNS)
        1 (some 20) with
    | .error _ => 2
    | .ok validatedTablet =>
      if DEVICE_BREAKPOINTS.TABLET ≤ (getScreenDimensions d).width then validatedTablet
      else validatedMobile

/-- The position returned by `getResponsiveFABPosition`. -/
structure FABPosition where
  bottom : ℚ
  right : ℚ
deriving DecidableEq

/-- Model of `getResponsiveFABPosition` from the responsive layout module.  Validates
the insets, then per device class takes the max of a fixed constant and the
inset plus a fixed offset.  Fallback `{bottom: 90, right: 20}`. -/
def getResponsiveFABPosition (insets : RawInsets) (d : RawDims) : FABPosition :=
  match validateSafeAreaInsets insets with
  | .error _ => ⟨90, 20⟩
  | .ok _ =>
    let width := (getScreenDimensions d).width
    let bottom := insets.bottom.valueOr 0
    let right := insets.right.valueOr 0
    if DEVICE_BREAKPOINTS.TABLET ≤ width then
      ⟨max LAYOUT_CONSTANTS.FAB_BOTTOM_TABLET (bottom + LAYOUT_CONSTANTS.TAB_BAR_OFFSET),
       max LAYOUT_CONSTANTS.FAB_RIGHT_TABLET (right + LAYOUT_CONSTANTS.HORIZONTAL_PADDING_BASE)⟩
    else
      ⟨max LAYOUT_CONSTANTS.TAB_BAR_OFFSET (bottom + LAYOUT_CONSTANTS.SAFE_AREA_OFFSET),
       max LAYOUT_CONSTANTS.FAB_RIGHT_PHONE (right + LAYOUT_CONSTANTS.SAFE_AREA_OFFSET)⟩


/-! Evaluation lemmas for the validation layer. -/

theorem validateNumber_ok {q lo hi : ℚ} (h1 : lo ≤ q) (h2 : q ≤ hi) :
    validateNumber (JSNum.num q) lo (some hi) = Except.ok q := by
  simp only [validateNumber, not_lt.mpr h1, if_false, not_lt.mpr h2, if_neg]

theorem validateNumber_none_ok {q lo : ℚ} (h1 : lo ≤ q) :
    validateNumber (JSNum.num q) lo none = Except.ok q := by
  simp only [validateNumber]
  rw [if_neg (not_lt.mpr h1)]

theorem safePercentage_ok (v p : ℚ) (hv : 0 ≤ v) (h0 : 0 ≤ p) (h1 : p ≤ 1) :
    safePercentage v p = Except.ok (v * p) := by
  simp only [safePercentage, validateNumber_none_ok hv, clamp, max_eq_left h0, min_eq_left h1]

theorem getScreenDimensions_valid {w h : ℚ} (hw1 : 100 ≤ w) (hw2 : w ≤ 10000)
    (hh1 : 100 ≤ h) (hh2 : h ≤ 10000) :
    getScreenDimensions ⟨JSNum.num w, JSNum.num h⟩ = ⟨w, h⟩ := by
  simp only [getScreenDimensions, validateScreenDimensions,
    VALIDATION_CONSTRAINTS.MIN_SCREEN_DIMENSION, VALIDATION_CONSTRAINTS.MAX_SCREEN_DIMENSION,
    validateNumber_ok hw1 hw2, validateNumber_ok hh1 hh2, JSNum.valueOr]

theorem orDefault_of_ne_undef {a : JSNum} (h : a ≠ JSNum.undef) (c : ℚ) :
    a.orDefault c = a := by
  cases a with
  | undef => exact absurd rfl h
  | nan => rfl
  | posInf => rfl
  | negInf => rfl
  | num q => rfl

/-! Branch lemmas: each sizing function on each device class. -/

section BranchLemmas

variable {w h b : ℚ}

theorem logoSize_small (hw1 : 100 ≤ w) (hw2 : w ≤ 10000) (hh1 : 100 ≤ h) (hh2 : h ≤ 10000)
    (hb1 : 50 ≤ b) (hb2 : b ≤ 500) (hc : w ≤ 375) :
    getResponsiveLogoSize (JSNum.num b) ⟨JSNum.num w, JSNum.num h⟩ =
      clamp (w * (28/100)) 100 120 := by
  have h0 : (0:ℚ) ≤ w := le_trans (by norm_num) hw1
  simp only [getResponsiveLogoSize, JSNum.orDefault, validateNumber_ok hb1 hb2,
    getScreenDimensions_valid hw1 hw2 hh1 hh2, DEVICE_BREAKPOINTS.SMALL_PHONE,
    DEVICE_BREAKPOINTS.TABLET, RESPONSIVE_PERCENTAGES.LOGO_SMALL_PHONE_MAX,
    SIZE_CONSTRAINTS.LOGO_MIN_SMALL, SIZE_CONSTRAINTS.LOGO_MAX_SMALL,
    safePercentage_ok w (28/100) h0 (by norm_num) (by norm_num), if_pos hc]

theorem logoSize_tablet (hw1 : 100 ≤ w) (hw2 : w ≤ 10000) (hh1 : 100 ≤ h) (hh2 : h ≤ 10000)
    (hb1 : 50 ≤ b) (hb2 : b ≤ 500) (hc : 1024 ≤ w) :
    getResponsiveLogoSize (JSNum.num b) ⟨JSNum.num w, JSNum.num h⟩ =
      clamp (w * (15/100)) 140 200 := by
  have h0 : (0:ℚ) ≤ w := le_trans (by norm_num) hw1
  have hns : ¬ (w ≤ 375) := not_le.mpr (lt_of_lt_of_le (by norm_num) hc)
  simp only [getResponsiveLogoSize, JSNum.orDefault, validateNumber_ok hb1 hb2,
    getScreenDimensions_valid hw1 hw2 hh1 hh2, DEVICE_BREAKPOINTS.SMALL_PHONE,
    DEVICE_BREAKPOINTS.TABLET, RESPONSIVE_PERCENTAGES.LOGO_TABLET_MAX,
    SIZE_CONSTRAINTS.LOGO_MIN_TABLET, SIZE_CONSTRAINTS.LOGO_MAX_TABLET,
    safePercentage_ok w (15/100) h0 (by norm_num) (by norm_num), if_neg hns, if_pos hc]

theorem logoSize_mid (hw1 : 100 ≤ w) (hw2 : w ≤ 10000) (hh1 : 100 ≤ h) (hh2 : h ≤ 10000)
    (hb1 : 50 ≤ b) (hb2 : b ≤ 500) (hc1 : 375 < w) (hc2 : w < 1024) :
    getResponsiveLogoSize (JSNum.num b) ⟨JSNum.num w, JSNum.num h⟩ = b := by
  simp only [getResponsiveLogoSize, JSNum.orDefault, validateNumber_ok hb1 hb2,
    getScreenDimensions_valid hw1 hw2 hh1 hh2, DEVICE_BREAKPOINTS.SMALL_PHONE,
    DEVICE_BREAKPOINTS.TABLET, if_neg (not_le.mpr hc1), if_neg (not_le.mpr hc2)]

theorem inputHeight_small (hw1 : 100 ≤ w) (hw2 : w ≤ 10000) (hh1 : 100 ≤ h) (hh2 : h ≤ 10000)
    (hb1 : 50 ≤ b) (hb2 : b ≤ 500) (hc : h ≤ 667) :
    getResponsiveInputHeight (JSNum.num b) ⟨JSNum.num w, JSNum.num h⟩ =
      min (h * (15/100)) 120 := by
  have h0 : (0:ℚ) ≤ h := le_trans (by norm_num) hh1
  simp only [getResponsiveInputHeight, JSNum.orDefault, validateNumber_ok hb1 hb2,
    getScreenDimensions_valid hw1 hw2 hh1 hh2, HEIGHT_THRESHOLDS.SMALL_DEVICE,
    HEIGHT_THRESHOLDS.MEDIUM_DEVICE, RESPONSIVE_PERCENTAGES.INPUT_SMALL_DEVICE,
    SIZE_CONSTRAINTS.INPUT_MAX_SMALL,
    safePercentage_ok h (15/100) h0 (by norm_num) (by norm_num), if_pos hc]

theorem inputHeight_medium (hw1 : 100 ≤ w) (hw2 : w ≤ 10000) (hh1 : 100 ≤ h) (hh2 : h ≤ 10000)
    (hb1 : 50 ≤ b) (hb2 : b ≤ 500) (hc1 : 667 < h) (hc2 : h ≤ 844) :
    getResponsiveInputHeight (JSNum.num b) ⟨JSNum.num w, JSNum.num h⟩ =
      min (h * (18/100)) 150 := by
  have h0 : (0:ℚ) ≤ h := le_trans (by norm_num) hh1
  simp only [getResponsiveInputHeight, JSNum.orDefault, validateNumber_ok hb1 hb2,
    getScreenDimensions_valid hw1 hw2 hh1 hh2, HEIGHT_THRESHOLDS.SMALL_DEVICE,
    HEIGHT_THRESHOLDS.MEDIUM_DEVICE, RESPONSIVE_PERCENTAGES.INPUT_MEDIUM_DEVICE,
    SIZE_CONSTRAINTS.INPUT_MAX_MEDIUM,
    safePercentage_ok h (18/100) h0 (by norm_num) (by norm_num),
    if_neg (not_le.mpr hc1), if_pos hc2]

theorem inputHeight_large (hw1 : 100 ≤ w) (hw2 : w ≤ 10000) (hh1 : 100 ≤ h) (hh2 : h ≤ 10000)
    (hb1 : 50 ≤ b) (hb2 : b ≤ 500) (hc : 844 < h) :
    getResponsiveInputHeight (JSNum.num b) ⟨JSNum.num w, JSNum.num h⟩ = min b 200 := by
  have hc1 : ¬ (h ≤ 667) := not_le.mpr (lt_trans (by norm_num) hc)
  simp only [getResponsiveInputHeight, JSNum.orDefault, validateNumber_ok hb1 hb2,
    getScreenDimensions_valid hw1 hw2 hh1 hh2, HEIGHT_THRESHOLDS.SMALL_DEVICE,
    HEIGHT_THRESHOLDS.MEDIUM_DEVICE, SIZE_CONSTRAINTS.INPUT_MAX_LARGE,
    if_neg hc1, if_neg (not_le.mpr hc)]

theorem iconSize_small (hw1 : 100 ≤ w) (hw2 : w ≤ 10000) (hh1 : 100 ≤ h) (hh2 : h ≤ 10000)
    (hb1 : 50 ≤ b) (hb2 : b ≤ 300) (hc : w ≤ 375) :
    getResponsiveIconContainerSize (JSNum.num b) ⟨JSNum.num w, JSNum.num h⟩ =
      min (w * (30/100)) 120 := by
  have h0 : (0:ℚ) ≤ w := le_trans (by norm_num) hw1
  simp only [getResponsiveIconContainerSize, JSNum.orDefault, validateNumber_ok hb1 hb2,
    getScreenDimensions_valid hw1 hw2 hh1 hh2, DEVICE_BREAKPOINTS.SMALL_PHONE,
    DEVICE_BREAKPOINTS.TABLET, RESPONSIVE_PERCENTAGES.ICON_CONTAINER_SMALL_PHONE,
    SIZE_CONSTRAINTS.ICON_MAX_SMALL,
    safePercentage_ok w (30/100) h0 (by norm_num) (by norm_num), if_pos hc]

theorem iconSize_tablet (hw1 : 100 ≤ w) (hw2 : w ≤ 10000) (hh1 : 100 ≤ h) (hh2 : h ≤ 10000)
    (hb1 : 50 ≤ b) (hb2 : b ≤ 300) (hc : 1024 ≤ w) :
    getResponsiveIconContainerSize (JSNum.num b) ⟨JSNum.num w, JSNum.num h⟩ =
      min (w * (20/100)) 180 := by
  have h0 : (0:ℚ) ≤ w := le_trans (by norm_num) hw1
  have hns : ¬ (w ≤ 375) := not_le.mpr (lt_of_lt_of_le (by norm_num) hc)
  simp only [getResponsiveIconContainerSize, JSNum.orDefault, validateNumber_ok hb1 hb2,
    getScreenDimensions_valid hw1 hw2 hh1 hh2, DEVICE_BREAKPOINTS.SMALL_PHONE,
    DEVICE_BREAKPOINTS.TABLET, RESPONSIVE_PERCENTAGES.ICON_CONTAINER_TABLET,
    SIZE_CONSTRAINTS.ICON_MAX_TABLET,
    safePercentage_ok w (20/100) h0 (by norm_num) (by norm_num), if_neg hns, if_pos hc]

theorem iconSize_mid (hw1 : 100 ≤ w) (hw2 : w ≤ 10000) (hh1 : 100 ≤ h) (hh2 : h ≤ 10000)
    (hb1 : 50 ≤ b) (hb2 : b ≤ 300) (hc1 : 375 < w) (hc2 : w < 1024) :
    getResponsiveIconContainerSize (JSNum.num b) ⟨JSNum.num w, JSNum.num h⟩ = b := by
  simp only [getResponsiveIconContainerSize, JSNum.orDefault, validateNumber_ok hb1 hb2,
    getScreenDimensions_valid hw1 hw2 hh1 hh2, DEVICE_BREAKPOINTS.SMALL_PHONE,
    DEVICE_BREAKPOINTS.TABLET, if_neg (not_le.mpr hc1), if_neg (not_le.mpr hc2)]

theorem maxWidth_small (hw1 : 100 ≤ w) (hw2 : w ≤ 10000) (hh1 : 100 ≤ h) (hh2 : h ≤ 10000)
    (hb1 : 100 ≤ b) (hb2 : b ≤ 1000) (hc : w ≤ 375) :
    getResponsiveMaxWidth (JSNum.num b) ⟨JSNum.num w, JSNum.num h⟩ = w * (90/100) := by
  have h0 : (0:ℚ) ≤ w := le_trans (by norm_num) hw1
  simp only [getResponsiveMaxWidth, JSNum.orDefault, validateNumber_ok hb1 hb2,
    getScreenDimensions_valid hw1 hw2 hh1 hh2, DEVICE_BREAKPOINTS.SMALL_PHONE,
    DEVICE_BREAKPOINTS.TABLET, RESPONSIVE_PERCENTAGES.CONTENT_SMALL_PHONE,
    safePercentage_ok w (90/100) h0 (by norm_num) (by norm_num), if_pos hc]

theorem maxWidth_tablet (hw1 : 100 ≤ w) (hw2 : w ≤ 10000) (hh1 : 100 ≤ h) (hh2 : h ≤ 10000)
    (hb1 : 100 ≤ b) (hb2 : b ≤ 1000) (hc : 1024 ≤ w) :
    getResponsiveMaxWidth (JSNum.num b) ⟨JSNum.num w, JSNum.num h⟩ =
      min (w * (60/100)) 600 := by
  have h0 : (0:ℚ) ≤ w := le_trans (by norm_num) hw1
  have hns : ¬ (w ≤ 375) := not_le.mpr (lt_of_lt_of_le (by norm_num) hc)
  simp only [getResponsiveMaxWidth, JSNum.orDefault, validateNumber_ok hb1 hb2,
    getScreenDimensions_valid hw1 hw2 hh1 hh2, DEVICE_BREAKPOINTS.SMALL_PHONE,
    DEVICE_BREAKPOINTS.TABLET, RESPONSIVE_PERCENTAGES.CONTENT_TABLET,
    SIZE_CONSTRAINTS.CONTENT_MAX_TABLET,
    safePercentage_ok w (60/100) h0 (by norm_num) (by norm_num), if_neg hns, if_pos hc]

theorem maxWidth_mid (hw1 : 100 ≤ w) (hw2 : w ≤ 10000) (hh1 : 100 ≤ h) (hh2 : h ≤ 10000)
    (hb1 : 100 ≤ b) (hb2 : b ≤ 1000) (hc1 : 375 < w) (hc2 : w < 1024) :
    getResponsiveMaxWidth (JSNum.num b) ⟨JSNum.num w, JSNum.num h⟩ =
      min (w * (85/100)) b := by
  have h0 : (0:ℚ) ≤ w := le_trans (by norm_num) hw1
  simp only [getResponsiveMaxWidth, JSNum.orDefault, validateNumber_ok hb1 hb2,
    getScreenDimensions_valid hw1 hw2 hh1 hh2, DEVICE_BREAKPOINTS.SMALL_PHONE,
    DEVICE_BREAKPOINTS.TABLET, RESPONSIVE_PERCENTAGES.CONTENT_PHONE,
    safePercentage_ok w (85/100) h0 (by norm_num) (by norm_num),
    if_neg (not_le.mpr hc1), if_neg (not_le.mpr hc2)]

theorem fontSize_small (hw1 : 100 ≤ w) (hw2 : w ≤ 10000) (hh1 : 100 ≤ h) (hh2 : h ≤ 10000)
    (hb1 : 1 ≤ b) (hb2 : b ≤ 1000) (hc : w ≤ 375) :
    getResponsiveFontSize (JSNum.num b) ⟨JSNum.num w, JSNum.num h⟩ =
      max (b * (90/100)) 11 := by
  simp only [getResponsiveFontSize, validateFontSize,
    VALIDATION_CONSTRAINTS.MIN_BASE_FONT_SIZE, VALIDATION_CONSTRAINTS.MAX_BASE_FONT_SIZE,
    validateNumber_ok hb1 hb2, getScreenDimensions_valid hw1 hw2 hh1 hh2,
    DEVICE_BREAKPOINTS.SMALL_PHONE, DEVICE_BREAKPOINTS.TABLET,
    RESPONSIVE_PERCENTAGES.FONT_SMALL_PHONE, SIZE_CONSTRAINTS.FONT_MIN_SIZE, if_pos hc]

theorem fontSize_tablet (hw1 : 100 ≤ w) (hw2 : w ≤ 10000) (hh1 : 100 ≤ h) (hh2 : h ≤ 10000)
    (hb1 : 1 ≤ b) (hb2 : b ≤ 1000) (hc : 1024 ≤ w) :
    getResponsiveFontSize (JSNum.num b) ⟨JSNum.num w, JSNum.num h⟩ = b * (110/100) := by
  have hns : ¬ (w ≤ 375) := not_le.mpr (lt_of_lt_of_le (by norm_num) hc)
  simp only [getResponsiveFontSize, validateFontSize,
    VALIDATION_CONSTRAINTS.MIN_BASE_FONT_SIZE, VALIDATION_CONSTRAINTS.MAX_BASE_FONT_SIZE,
    validateNumber_ok hb1 hb2, getScreenDimensions_valid hw1 hw2 hh1 hh2,
    DEVICE_BREAKPOINTS.SMALL_PHONE, DEVICE_BREAKPOINTS.TABLET,
    RESPONSIVE_PERCENTAGES.FONT_TABLET, if_neg hns, if_pos hc]

theorem fontSize_mid (hw1 : 100 ≤ w) (hw2 : w ≤ 10000) (hh1 : 100 ≤ h) (hh2 : h ≤ 10000)
    (hb1 : 1 ≤ b) (hb2 : b ≤ 1000) (hc1 : 375 < w) (hc2 : w < 1024) :
    getResponsiveFontSize (JSNum.num b) ⟨JSNum.num w, JSNum.num h⟩ = b := by
  simp only [getResponsiveFontSize, validateFontSize,
    VALIDATION_CONSTRAINTS.MIN_BASE_FONT_SIZE, VALIDATION_CONSTRAINTS.MAX_BASE_FONT_SIZE,
    validateNumber_ok hb1 hb2, getScreenDimensions_valid hw1 hw2 hh1 hh2,
    DEVICE_BREAKPOINTS.SMALL_PHONE, DEVICE_BREAKPOINTS.TABLET,
    if_neg (not_le.mpr hc1), if_neg (not_le.mpr hc2)]

end BranchLemmas

section GridFabLemmas

variable {w h m t ib ir : ℚ}

theorem gridColumns_tablet (hw1 : 100 ≤ w) (hw2 : w ≤ 10000) (hh1 : 100 ≤ h) (hh2 : h ≤ 10000)
    (hm1 : 1 ≤ m) (hm2 : m ≤ 20) (ht1 : 1 ≤ t) (ht2 : t ≤ 20) (hc : 1024 ≤ w) :
    getResponsiveGridColumns (JSNum.num m) (JSNum.num t) ⟨JSNum.num w, JSNum.num h⟩ = t := by
  simp only [getResponsiveGridColumns, JSNum.orDefault, validateNumber_ok hm1 hm2,
    validateNumber_ok ht1 ht2,
    getScreenDimensions_valid hw1 hw2 hh1 hh2, DEVICE_BREAKPOINTS.TABLET, if_pos hc]

theorem gridColumns_mobile (hw1 : 100 ≤ w) (hw2 : w ≤ 10000) (hh1 : 100 ≤ h) (hh2 : h ≤ 10000)
    (hm1 : 1 ≤ m) (hm2 : m ≤ 20) (ht1 : 1 ≤ t) (ht2 : t ≤ 20) (hc : w < 1024) :
    getResponsiveGridColumns (JSNum.num m) (JSNum.num t) ⟨JSNum.num w, JSNum.num h⟩ = m := by
  simp only [getResponsiveGridColumns, JSNum.orDefault, validateNumber_ok hm1 hm2,
    validateNumber_ok ht1 ht2,
    getScreenDimensions_valid hw1 hw2 hh1 hh2, DEVICE_BREAKPOINTS.TABLET,
    if_neg (not_le.mpr hc)]

theorem fabPosition_tablet (hw1 : 100 ≤ w) (hw2 : w ≤ 10000) (hh1 : 100 ≤ h) (hh2 : h ≤ 10000)
    (hb1 : 0 ≤ ib) (hb2 : ib ≤ 1000) (hr1 : 0 ≤ ir) (hr2 : ir ≤ 1000) (hc : 1024 ≤ w) :
    getResponsiveFABPosition ⟨JSNum.undef, JSNum.num ib, JSNum.undef, JSNum.num ir⟩
      ⟨JSNum.num w, JSNum.num h⟩ = ⟨max 100 (ib + 90), max 24 (ir + 16)⟩ := by
  simp only [getResponsiveFABPosition, validateSafeAreaInsets, JSNum.orDefault,
    validateNumber_ok (le_refl (0:ℚ)) (by norm_num : (0:ℚ) ≤ 1000),
    validateNumber_ok hb1 hb2, validateNumber_ok hr1 hr2,
    getScreenDimensions_valid hw1 hw2 hh1 hh2, DEVICE_BREAKPOINTS.TABLET,
    LAYOUT_CONSTANTS.FAB_BOTTOM_TABLET, LAYOUT_CONSTANTS.FAB_RIGHT_TABLET,
    LAYOUT_CONSTANTS.TAB_BAR_OFFSET, LAYOUT_CONSTANTS.HORIZONTAL_PADDING_BASE,
    JSNum.valueOr, if_pos hc]

theorem fabPosition_phone (hw1 : 100 ≤ w) (hw2 : w ≤ 10000) (hh1 : 100 ≤ h) (hh2 : h ≤ 10000)
    (hb1 : 0 ≤ ib) (hb2 : ib ≤ 1000) (hr1 : 0 ≤ ir) (hr2 : ir ≤ 1000) (hc : w < 1024) :
    getResponsiveFABPosition ⟨JSNum.undef, JSNum.num ib, JSNum.undef, JSNum.num ir⟩
      ⟨JSNum.num w, JSNum.num h⟩ = ⟨max 90 (ib + 16), max 20 (ir + 16)⟩ := by
  simp only [getResponsiveFABPosition, validateSafeAreaInsets, JSNum.orDefault,
    validateNumber_ok (le_refl (0:ℚ)) (by norm_num : (0:ℚ) ≤ 1000),
    validateNumber_ok hb1 hb2, validateNumber_ok hr1 hr2,
    getScreenDimensions_valid hw1 hw2 hh1 hh2, DEVICE_BREAKPOINTS.TABLET,
    LAYOUT_CONSTANTS.FAB_RIGHT_PHONE, LAYOUT_CONSTANTS.TAB_BAR_OFFSET,
    LAYOUT_CONSTANTS.SAFE_AREA_OFFSET, JSNum.valueOr, if_neg (not_le.mpr hc)]

end GridFabLemmas

/-! Fallback lemmas: failed validation yields the documented default. -/

theorem logoSize_invalid {a : JSNum} {d : RawDims} (hu : a ≠ JSNum.undef)
    (ha : isOk (validateNumber a 50 (some 500)) = false) :
    getResponsiveLogoSize a d = 140 := by
  cases hval : validateNumber a 50 (some 500) with
  | error e => simp only [getResponsiveLogoSize, orDefault_of_ne_undef hu, hval]
  | ok q => rw [hval] at ha; simp [isOk] at ha

theorem inputHeight_invalid {a : JSNum} {d : RawDims} (hu : a ≠ JSNum.undef)
    (ha : isOk (validateNumber a 50 (some 500)) = false) :
    getResponsiveInputHeight a d = 200 := by
  cases hval : validateNumber a 50 (some 500) with
  | error e => simp only [getResponsiveInputHeight, orDefault_of_ne_undef hu, hval]
  | ok q => rw [hval] at ha; simp [isOk] at ha

theorem iconSize_invalid {a : JSNum} {d : RawDims} (hu : a ≠ JSNum.undef)
    (ha : isOk (validateNumber a 50 (some 300)) = false) :
    getResponsiveIconContainerSize a d = 140 := by
  cases hval : validateNumber a 50 (some 300) with
  | error e => simp only [getResponsiveIconContainerSize, orDefault_of_ne_undef hu, hval]
  | ok q => rw [hval] at ha; simp [isOk] at ha

theorem maxWidth_invalid {a : JSNum} {d : RawDims} (hu : a ≠ JSNum.undef)
    (ha : isOk (validateNumber a 100 (some 1000)) = false) :
    getResponsiveMaxWidth a d = 400 := by
  cases hval : validateNumber a 100 (some 1000) with
  | error e => simp only [getResponsiveMaxWidth, orDefault_of_ne_undef hu, hval]
  | ok q => rw [hval] at ha; simp [isOk] at ha

theorem fontSize_invalid {a : JSNum} {d : RawDims}
    (ha : isOk (validateFontSize a) = false) :
    getResponsiveFontSize a d = 16 := by
  cases hval : validateFontSize a with
  | error e => simp only [getResponsiveFontSize, hval]
  | ok q => rw [hval] at ha; simp [isOk] at ha

theorem gridColumns_invalid_mobile {m t : JSNum} {d : RawDims} (hu : m ≠ JSNum.undef)
    (hm : isOk (validateNumber m 1 (some 20)) = false) :
    getResponsiveGridColumns m t d = 2 := by
  cases hval : validateNumber m 1 (some 20) with
  | error e => simp only [getResponsiveGridColumns, orDefault_of_ne_undef hu, hval]
  | ok q => rw [hval] at hm; simp [isOk] at hm

theorem gridColumns_invalid_tablet {m t : JSNum} {d : RawDims} (hu : t ≠ JSNum.undef)
    (ht : isOk (validateNumber t 1 (some 20)) = false) :
    getResponsiveGridColumns m t d = 2 := by
  cases hvm : validateNumber (m.orDefault GRID_CONFIG.DEFAULT_MOBILE_COLUMNS)
      1 (some 20) with
  | error e => simp only [getResponsiveGridColumns, hvm]
  | ok q =>
    cases hvt : validateNumber t 1 (some 20) with
    | error e =>
      simp only [getResponsiveGridColumns, hvm, orDefault_of_ne_undef hu, hvt]
    | ok r => rw [hvt] at ht; simp [isOk] at ht

theorem fabPosition_invalid {ins : RawInsets} {d : RawDims}
    (hi : isOk (validateSafeAreaInsets ins) = false) :
    getResponsiveFABPosition ins d = ⟨90, 20⟩ := by
  cases hval : validateSafeAreaInsets ins with
  | error e => simp only [getResponsiveFABPosition, hval]
  | ok u => rw [hval] at hi; simp [isOk] at hi

theorem getScreenDimensions_invalid {d : RawDims}
    (hd : isOk (validateScreenDimensions d.width d.height) = false) :
    getScreenDimensions d = ⟨414, 896⟩ := by
  cases hval : validateScreenDimensions d.width d.height with
  | error e => simp only [getScreenDimensions, hval]
  | ok u => rw [hval] at hd; simp [isOk] at hd

theorem validateScreenDimensions_fails {vw vh : JSNum}
    (hd : isOk (validateNumber vw 100 (some 10000)) = false ∨
          isOk (validateNumber vh 100 (some 10000)) = false) :
    isOk (validateScreenDimensions vw vh) = false := by
  simp only [validateScreenDimensions, VALIDATION_CONSTRAINTS.MIN_SCREEN_DIMENSION,
    VALIDATION_CONSTRAINTS.MAX_SCREEN_DIMENSION]
  cases hvw : validateNumber vw 100 (some 10000) with
  | error e => simp [isOk]
  | ok q =>
    cases hvh : validateNumber vh 100 (some 10000) with
    | error e => simp [isOk]
    | ok r =>
      rw [hvw, hvh] at hd
      rcases hd with hd | hd <;> simp [isOk] at hd


/-! Claims. -/

/-- Claim C1 as frozen is false of the code for `undefined` arguments: the
sizing functions with a declared parameter default replace an undefined
argument by that default before validation, then compute the normal branch.
Concretely `getResponsiveLogoSize(undefined)` on a 320×568 screen returns
`clamp (320 × 0.28) 100 120 = 100`, not the claimed fixed default 140. -/
theorem claim1_counterexample :
    getResponsiveLogoSize JSNum.undef ⟨JSNum.num 320, JSNum.num 568⟩ = 100 ∧
    getResponsiveLogoSize JSNum.undef ⟨JSNum.num 320, JSNum.num 568⟩ ≠ 140 := by
  have hsub : getResponsiveLogoSize JSNum.undef ⟨JSNum.num 320, JSNum.num 568⟩ =
      getResponsiveLogoSize (JSNum.num 140) ⟨JSNum.num 320, JSNum.num 568⟩ := rfl
  have hval : getResponsiveLogoSize JSNum.undef ⟨JSNum.num 320, JSNum.num 568⟩ = 100 := by
    rw [hsub, logoSize_small (by norm_num) (by norm_num) (by norm_num) (by norm_num)
      (by norm_num) (by norm_num) (by norm_num)]
    norm_num [clamp]
  exact ⟨hval, by rw [hval]; norm_num⟩

/-- Claim C1 amended: an undefined argument of a sizing function with a
declared parameter default is replaced by that default before validation and
processed normally; whenever a supplied (non-undefined) argument fails
validation (NaN, an infinity, or a value outside the declared range) — and,
for `getResponsiveFontSize`, which declares no default, also when the
argument is undefined — the function returns its fixed documented default
(logo 140, input height 200, icon container 140, max content width 400, font
size 16, grid columns 2, FAB position `{bottom: 90, right: 20}`), for any
reported screen dimensions; no exception propagates (every embedded function
is total). -/
theorem claim1_amended_fallback (d : RawDims) :
    (∀ a : JSNum, a ≠ JSNum.undef → isOk (validateNumber a 50 (some 500)) = false →
       getResponsiveLogoSize a d = 140) ∧
    getResponsiveLogoSize JSNum.undef d = getResponsiveLogoSize (JSNum.num 140) d ∧
    (∀ a : JSNum, a ≠ JSNum.undef → isOk (validateNumber a 50 (some 500)) = false →
       getResponsiveInputHeight a d = 200) ∧
    getResponsiveInputHeight JSNum.undef d = getResponsiveInputHeight (JSNum.num 200) d ∧
    (∀ a : JSNum, a ≠ JSNum.undef → isOk (validateNumber a 50 (some 300)) = false →
       getResponsiveIconContainerSize a d = 140) ∧
    getResponsiveIconContainerSize JSNum.undef d =
      getResponsiveIconContainerSize (JSNum.num 140) d ∧
    (∀ a : JSNum, a ≠ JSNum.undef → isOk (validateNumber a 100 (some 1000)) = false →
       getResponsiveMaxWidth a d = 400) ∧
    getResponsiveMaxWidth JSNum.undef d = getResponsiveMaxWidth (JSNum.num 400) d ∧
    (∀ a : JSNum, isOk (validateFontSize a) = false →
       getResponsiveFontSize a d = 16) ∧
    (∀ m t : JSNum, m ≠ JSNum.undef → isOk (validateNumber m 1 (some 20)) = false →
       getResponsiveGridColumns m t d = 2) ∧
    (∀ m t : JSNum, t ≠ JSNum.undef → isOk (validateNumber t 1 (some 20)) = false →
       getResponsiveGridColumns m t d = 2) ∧
    (∀ t : JSNum, getResponsiveGridColumns JSNum.undef t d =
       getResponsiveGridColumns (JSNum.num 2) t d) ∧
    (∀ m : JSNum, getResponsiveGridColumns m JSNum.undef d =
       getResponsiveGridColumns m (JSNum.num 4) d) ∧
    (∀ ins : RawInsets, isOk (validateSafeAreaInsets ins) = false →
       getResponsiveFABPosition ins d = ⟨90, 20⟩) :=
  ⟨fun _ hu ha => logoSize_invalid hu ha, rfl,
   fun _ hu ha => inputHeight_invalid hu ha, rfl,
   fun _ hu ha => iconSize_invalid hu ha, rfl,
   fun _ hu ha => maxWidth_invalid hu ha, rfl,
   fun _ ha => fontSize_invalid ha,
   fun _ _ hu hm => gridColumns_invalid_mobile hu hm,
   fun _ _ hu ht => gridColumns_invalid_tablet hu ht,
   fun _ => rfl, fun _ => rfl,
   fun _ hi => fabPosition_invalid hi⟩

/-- Witness for amended C1 at concrete invalid inputs on a 414×896 screen,
plus the default-substitution equations at the same screen. -/
theorem claim1_amended_fallback_witness :
    getResponsiveLogoSize JSNum.nan ⟨JSNum.num 414, JSNum.num 896⟩ = 140 ∧
    getResponsiveLogoSize JSNum.undef ⟨JSNum.num 414, JSNum.num 896⟩ =
      getResponsiveLogoSize (JSNum.num 140) ⟨JSNum.num 414, JSNum.num 896⟩ ∧
    getResponsiveInputHeight (JSNum.num 30) ⟨JSNum.num 414, JSNum.num 896⟩ = 200 ∧
    getResponsiveInputHeight JSNum.undef ⟨JSNum.num 414, JSNum.num 896⟩ =
      getResponsiveInputHeight (JSNum.num 200) ⟨JSNum.num 414, JSNum.num 896⟩ ∧
    getResponsiveIconContainerSize JSNum.posInf ⟨JSNum.num 414, JSNum.num 896⟩ = 140 ∧
    getResponsiveIconContainerSize JSNum.undef ⟨JSNum.num 414, JSNum.num 896⟩ =
      getResponsiveIconContainerSize (JSNum.num 140) ⟨JSNum.num 414, JSNum.num 896⟩ ∧
    getResponsiveMaxWidth (JSNum.num 5000) ⟨JSNum.num 414, JSNum.num 896⟩ = 400 ∧
    getResponsiveMaxWidth JSNum.undef ⟨JSNum.num 414, JSNum.num 896⟩ =
      getResponsiveMaxWidth (JSNum.num 400) ⟨JSNum.num 414, JSNum.num 896⟩ ∧
    getResponsiveFontSize JSNum.negInf ⟨JSNum.num 414, JSNum.num 896⟩ = 16 ∧
    getResponsiveGridColumns (JSNum.num 0) (JSNum.num 4)
      ⟨JSNum.num 414, JSNum.num 896⟩ = 2 ∧
    getResponsiveGridColumns (JSNum.num 2) (JSNum.num 21)
      ⟨JSNum.num 414, JSNum.num 896⟩ = 2 ∧
    getResponsiveGridColumns JSNum.undef (JSNum.num 4)
        ⟨JSNum.num 414, JSNum.num 896⟩ =
      getResponsiveGridColumns (JSNum.num 2) (JSNum.num 4)
        ⟨JSNum.num 414, JSNum.num 896⟩ ∧
    getResponsiveGridColumns (JSNum.num 2) JSNum.undef
        ⟨JSNum.num 414, JSNum.num 896⟩ =
      getResponsiveGridColumns (JSNum.num 2) (JSNum.num 4)
        ⟨JSNum.num 414, JSNum.num 896⟩ ∧
    getResponsiveFABPosition ⟨JSNum.undef, JSNum.nan, JSNum.undef, JSNum.undef⟩
      ⟨JSNum.num 414, JSNum.num 896⟩ = ⟨90, 20⟩ :=
  ⟨(claim1_amended_fallback _).1 JSNum.nan (by decide) (by decide),
   (claim1_amended_fallback _).2.1,
   (claim1_amended_fallback _).2.2.1 (JSNum.num 30) (by decide) (by decide),
   (claim1_amended_fallback _).2.2.2.1,
   (claim1_amended_fallback _).2.2.2.2.1 JSNum.posInf (by decide) (by decide),
   (claim1_amended_fallback _).2.2.2.2.2.1,
   (claim1_amended_fallback _).2.2.2.2.2.2.1 (JSNum.num 5000) (by decide) (by decide),
   (claim1_amended_fallback _).2.2.2.2.2.2.2.1,
   (claim1_amended_fallback _).2.2.2.2.2.2.2.2.1 JSNum.negInf (by decide),
   (claim1_amended_fallback _).2.2.2.2.2.2.2.2.2.1 (JSNum.num 0) (JSNum.num 4)
     (by decide) (by decide),
   (claim1_amended_fallback _).2.2.2.2.2.2.2.2.2.2.1 (JSNum.num 2) (JSNum.num 21)
     (by decide) (by decide),
   (claim1_amended_fallback _).2.2.2.2.2.2.2.2.2.2.2.1 (JSNum.num 4),
   (claim1_amended_fallback _).2.2.2.2.2.2.2.2.2.2.2.2.1 (JSNum.num 2),
   (claim1_amended_fallback _).2.2.2.2.2.2.2.2.2.2.2.2.2
     ⟨JSNum.undef, JSNum.nan, JSNum.undef, JSNum.undef⟩ (by decide)⟩

/-- Claim C2: for valid screen dimensions and `baseSize ∈ [50, 500]`,
`getResponsiveLogoSize` returns `width × 0.28` clamped to `[100, 120]` when
`width ≤ 375`, `width × 0.15` clamped to `[140, 200]` when `width ≥ 1024`,
and `baseSize` otherwise. -/
theorem claim2_logo_size_spec (w h b : ℚ) (hw1 : 100 ≤ w) (hw2 : w ≤ 10000)
    (hh1 : 100 ≤ h) (hh2 : h ≤ 10000) (hb1 : 50 ≤ b) (hb2 : b ≤ 500) :
    (w ≤ 375 → getResponsiveLogoSize (JSNum.num b) ⟨JSNum.num w, JSNum.num h⟩ =
       clamp (w * (28/100)) 100 120) ∧
    (1024 ≤ w → getResponsiveLogoSize (JSNum.num b) ⟨JSNum.num w, JSNum.num h⟩ =
       clamp (w * (15/100)) 140 200) ∧
    (375 < w → w < 1024 →
       getResponsiveLogoSize (JSNum.num b) ⟨JSNum.num w, JSNum.num h⟩ = b) :=
  ⟨fun hc => logoSize_small hw1 hw2 hh1 hh2 hb1 hb2 hc,
   fun hc => logoSize_tablet hw1 hw2 hh1 hh2 hb1 hb2 hc,
   fun hc1 hc2 => logoSize_mid hw1 hw2 hh1 hh2 hb1 hb2 hc1 hc2⟩

/-- Witness for C2: a 320-wide screen gives `clamp (320 × 0.28) 100 120 = 100`. -/
theorem claim2_logo_size_spec_witness :
    getResponsiveLogoSize (JSNum.num 140) ⟨JSNum.num 320, JSNum.num 568⟩ = 100 :=
  ((claim2_logo_size_spec 320 568 140 (by norm_num) (by norm_num) (by norm_num)
      (by norm_num) (by norm_num) (by norm_num)).1 (by norm_num)).trans
    (by norm_num [clamp])

/-- Claim C3: for valid screen dimensions and `baseHeight ∈ [50, 500]`,
`getResponsiveInputHeight` returns `min (height × 0.15) 120` when
`height ≤ 667`, `min (height × 0.18) 150` when `667 < height ≤ 844`, and
`min baseHeight 200` otherwise; consequently the result never exceeds 200. -/
theorem claim3_input_height_spec (w h b : ℚ) (hw1 : 100 ≤ w) (hw2 : w ≤ 10000)
    (hh1 : 100 ≤ h) (hh2 : h ≤ 10000) (hb1 : 50 ≤ b) (hb2 : b ≤ 500) :
    (h ≤ 667 → getResponsiveInputHeight (JSNum.num b) ⟨JSNum.num w, JSNum.num h⟩ =
       min (h * (15/100)) 120) ∧
    (667 < h → h ≤ 844 →
       getResponsiveInputHeight (JSNum.num b) ⟨JSNum.num w, JSNum.num h⟩ =
         min (h * (18/100)) 150) ∧
    (844 < h → getResponsiveInputHeight (JSNum.num b) ⟨JSNum.num w, JSNum.num h⟩ =
       min b 200) ∧
    getResponsiveInputHeight (JSNum.num b) ⟨JSNum.num w, JSNum.num h⟩ ≤ 200 := by
  refine ⟨fun hc => inputHeight_small hw1 hw2 hh1 hh2 hb1 hb2 hc,
    fun hc1 hc2 => inputHeight_medium hw1 hw2 hh1 hh2 hb1 hb2 hc1 hc2,
    fun hc => inputHeight_large hw1 hw2 hh1 hh2 hb1 hb2 hc, ?_⟩
  rcases le_or_lt h 667 with hc | hc
  · rw [inputHeight_small hw1 hw2 hh1 hh2 hb1 hb2 hc]
    exact le_trans (min_le_right _ _) (by norm_num)
  · rcases le_or_lt h 844 with hc2 | hc2
    · rw [inputHeight_medium hw1 hw2 hh1 hh2 hb1 hb2 hc hc2]
      exact le_trans (min_le_right _ _) (by norm_num)
    · rw [inputHeight_large hw1 hw2 hh1 hh2 hb1 hb2 hc2]
      exact min_le_right _ _

/-- Witness for C3: a 568-tall screen gives `min (568 × 0.15) 120 = 85.2`,
and the 200 bound holds. -/
theorem claim3_input_height_spec_witness :
    getResponsiveInputHeight (JSNum.num 200) ⟨JSNum.num 320, JSNum.num 568⟩ = 426/5 ∧
    getResponsiveInputHeight (JSNum.num 200) ⟨JSNum.num 320, JSNum.num 568⟩ ≤ 200 :=
  ⟨((claim3_input_height_spec 320 568 200 (by norm_num) (by norm_num) (by norm_num)
      (by norm_num) (by norm_num) (by norm_num)).1 (by norm_num)).trans (by norm_num),
   (claim3_input_height_spec 320 568 200 (by norm_num) (by norm_num) (by norm_num)
      (by norm_num) (by norm_num) (by norm_num)).2.2.2⟩


/-- Claim C4: for valid screen dimensions and insets with bottom and right in
`[0, 1000]`, `getResponsiveFABPosition` returns, per coordinate, the max of a
fixed constant and the inset plus a fixed offset; on tablets (`width ≥ 1024`)
the result satisfies `bottom ≥ 100` and `right ≥ 24`, on phones `bottom ≥ 90`
and `right ≥ 20`. -/
theorem claim4_fab_position_spec (w h ib ir : ℚ) (hw1 : 100 ≤ w) (hw2 : w ≤ 10000)
    (hh1 : 100 ≤ h) (hh2 : h ≤ 10000) (hb1 : 0 ≤ ib) (hb2 : ib ≤ 1000)
    (hr1 : 0 ≤ ir) (hr2 : ir ≤ 1000) :
    (1024 ≤ w →
       getResponsiveFABPosition ⟨JSNum.undef, JSNum.num ib, JSNum.undef, JSNum.num ir⟩
           ⟨JSNum.num w, JSNum.num h⟩ = ⟨max 100 (ib + 90), max 24 (ir + 16)⟩ ∧
       100 ≤ (getResponsiveFABPosition ⟨JSNum.undef, JSNum.num ib, JSNum.undef, JSNum.num ir⟩
           ⟨JSNum.num w, JSNum.num h⟩).bottom ∧
       24 ≤ (getResponsiveFABPosition ⟨JSNum.undef, JSNum.num ib, JSNum.undef, JSNum.num ir⟩
           ⟨JSNum.num w, JSNum.num h⟩).right) ∧
    (w < 1024 →
       getResponsiveFABPosition ⟨JSNum.undef, JSNum.num ib, JSNum.undef, JSNum.num ir⟩
           ⟨JSNum.num w, JSNum.num h⟩ = ⟨max 90 (ib + 16), max 20 (ir + 16)⟩ ∧
       90 ≤ (getResponsiveFABPosition ⟨JSNum.undef, JSNum.num ib, JSNum.undef, JSNum.num ir⟩
           ⟨JSNum.num w, JSNum.num h⟩).bottom ∧
       20 ≤ (getResponsiveFABPosition ⟨JSNum.undef, JSNum.num ib, JSNum.undef, JSNum.num ir⟩
           ⟨JSNum.num w, JSNum.num h⟩).right) := by
  constructor
  · intro hc
    have heq := fabPosition_tablet hw1 hw2 hh1 hh2 hb1 hb2 hr1 hr2 hc
    refine ⟨heq, ?_, ?_⟩ <;> rw [heq]
    · exact le_max_left _ _
    · exact le_max_left _ _
  · intro hc
    have heq := fabPosition_phone hw1 hw2 hh1 hh2 hb1 hb2 hr1 hr2 hc
    refine ⟨heq, ?_, ?_⟩ <;> rw [heq]
    · exact le_max_left _ _
    · exact le_max_left _ _

/-- Witness for C4: a 1024-wide tablet with insets `{bottom: 34, right: 0}`
gives `{bottom: max 100 124, right: max 24 16} = {bottom: 124, right: 24}`. -/
theorem claim4_fab_position_spec_witness :
    getResponsiveFABPosition ⟨JSNum.undef, JSNum.num 34, JSNum.undef, JSNum.num 0⟩
      ⟨JSNum.num 1024, JSNum.num 768⟩ = ⟨124, 24⟩ :=
  (((claim4_fab_position_spec 1024 768 34 0 (by norm_num) (by norm_num) (by norm_num)
      (by norm_num) (by norm_num) (by norm_num) (by norm_num) (by norm_num)).1
    (by norm_num)).1).trans (by norm_num)

/-- Claim C5: for valid screen dimensions and `baseWidth ∈ [100, 1000]`,
`getResponsiveMaxWidth` returns `width × 0.90` unbounded when `width ≤ 375`,
`min (width × 0.60) 600` when `width ≥ 1024`, and
`min (width × 0.85) baseWidth` otherwise. -/
theorem claim5_max_width_spec (w h b : ℚ) (hw1 : 100 ≤ w) (hw2 : w ≤ 10000)
    (hh1 : 100 ≤ h) (hh2 : h ≤ 10000) (hb1 : 100 ≤ b) (hb2 : b ≤ 1000) :
    (w ≤ 375 → getResponsiveMaxWidth (JSNum.num b) ⟨JSNum.num w, JSNum.num h⟩ =
       w * (90/100)) ∧
    (1024 ≤ w → getResponsiveMaxWidth (JSNum.num b) ⟨JSNum.num w, JSNum.num h⟩ =
       min (w * (60/100)) 600) ∧
    (375 < w → w < 1024 →
       getResponsiveMaxWidth (JSNum.num b) ⟨JSNum.num w, JSNum.num h⟩ =
         min (w * (85/100)) b) :=
  ⟨fun hc => maxWidth_small hw1 hw2 hh1 hh2 hb1 hb2 hc,
   fun hc => maxWidth_tablet hw1 hw2 hh1 hh2 hb1 hb2 hc,
   fun hc1 hc2 => maxWidth_mid hw1 hw2 hh1 hh2 hb1 hb2 hc1 hc2⟩

/-- Witness for C5: a 320-wide screen gives `320 × 0.90 = 288`, above any
cap (the small-phone branch applies no bound). -/
theorem claim5_max_width_spec_witness :
    getResponsiveMaxWidth (JSNum.num 400) ⟨JSNum.num 320, JSNum.num 568⟩ = 288 :=
  ((claim5_max_width_spec 320 568 400 (by norm_num) (by norm_num) (by norm_num)
      (by norm_num) (by norm_num) (by norm_num)).1 (by norm_num)).trans (by norm_num)

/-- Claim C6: for valid screen dimensions and `baseFontSize ∈ [1, 1000]`,
`getResponsiveFontSize` returns `max (base × 0.90) 11` when `width ≤ 375`,
`base × 1.10` with no minimum when `width ≥ 1024`, and `base` otherwise. -/
theorem claim6_font_size_spec (w h b : ℚ) (hw1 : 100 ≤ w) (hw2 : w ≤ 10000)
    (hh1 : 100 ≤ h) (hh2 : h ≤ 10000) (hb1 : 1 ≤ b) (hb2 : b ≤ 1000) :
    (w ≤ 375 → getResponsiveFontSize (JSNum.num b) ⟨JSNum.num w, JSNum.num h⟩ =
       max (b * (90/100)) 11) ∧
    (1024 ≤ w → getResponsiveFontSize (JSNum.num b) ⟨JSNum.num w, JSNum.num h⟩ =
       b * (110/100)) ∧
    (375 < w → w < 1024 →
       getResponsiveFontSize (JSNum.num b) ⟨JSNum.num w, JSNum.num h⟩ = b) :=
  ⟨fun hc => fontSize_small hw1 hw2 hh1 hh2 hb1 hb2 hc,
   fun hc => fontSize_tablet hw1 hw2 hh1 hh2 hb1 hb2 hc,
   fun hc1 hc2 => fontSize_mid hw1 hw2 hh1 hh2 hb1 hb2 hc1 hc2⟩

/-- Witness for C6: on a 1024-wide tablet a base font of 2 yields
`2 × 1.10 = 2.2`, below 11 — the minimum applies only in the small branch. -/
theorem claim6_font_size_spec_witness :
    getResponsiveFontSize (JSNum.num 2) ⟨JSNum.num 1024, JSNum.num 768⟩ = 11/5 :=
  ((claim6_font_size_spec 1024 768 2 (by norm_num) (by norm_num) (by norm_num)
      (by norm_num) (by norm_num) (by norm_num)).2.1 (by norm_num)).trans (by norm_num)

/-- Claim C7: for valid screen dimensions and `baseSize ∈ [50, 300]`,
`getResponsiveIconContainerSize` returns `min (width × 0.30) 120` when
`width ≤ 375`, `min (width × 0.20) 180` when `width ≥ 1024`, and `baseSize`
otherwise. -/
theorem claim7_icon_container_spec (w h b : ℚ) (hw1 : 100 ≤ w) (hw2 : w ≤ 10000)
    (hh1 : 100 ≤ h) (hh2 : h ≤ 10000) (hb1 : 50 ≤ b) (hb2 : b ≤ 300) :
    (w ≤ 375 →
       getResponsiveIconContainerSize (JSNum.num b) ⟨JSNum.num w, JSNum.num h⟩ =
         min (w * (30/100)) 120) ∧
    (1024 ≤ w →
       getResponsiveIconContainerSize (JSNum.num b) ⟨JSNum.num w, JSNum.num h⟩ =
         min (w * (20/100)) 180) ∧
    (375 < w → w < 1024 →
       getResponsiveIconContainerSize (JSNum.num b) ⟨JSNum.num w, JSNum.num h⟩ = b) :=
  ⟨fun hc => iconSize_small hw1 hw2 hh1 hh2 hb1 hb2 hc,
   fun hc => iconSize_tablet hw1 hw2 hh1 hh2 hb1 hb2 hc,
   fun hc1 hc2 => iconSize_mid hw1 hw2 hh1 hh2 hb1 hb2 hc1 hc2⟩

/-- Witness for C7: a 375-wide screen gives `min (375 × 0.30) 120 = 112.5`. -/
theorem claim7_icon_container_spec_witness :
    getResponsiveIconContainerSize (JSNum.num 140) ⟨JSNum.num 375, JSNum.num 667⟩ =
      225/2 :=
  ((claim7_icon_container_spec 375 667 140 (by norm_num) (by norm_num) (by norm_num)
      (by norm_num) (by norm_num) (by norm_num)).1 (by norm_num)).trans (by norm_num)

/-- Claim C8: for valid screen dimensions and column counts in `[1, 20]`,
`getResponsiveGridColumns` returns `tabletColumns` when `width ≥ 1024` and
`mobileColumns` otherwise, unmodified. -/
theorem claim8_grid_columns_spec (w h m t : ℚ) (hw1 : 100 ≤ w) (hw2 : w ≤ 10000)
    (hh1 : 100 ≤ h) (hh2 : h ≤ 10000) (hm1 : 1 ≤ m) (hm2 : m ≤ 20)
    (ht1 : 1 ≤ t) (ht2 : t ≤ 20) :
    (1024 ≤ w →
       getResponsiveGridColumns (JSNum.num m) (JSNum.num t)
         ⟨JSNum.num w, JSNum.num h⟩ = t) ∧
    (w < 1024 →
       getResponsiveGridColumns (JSNum.num m) (JSNum.num t)
         ⟨JSNum.num w, JSNum.num h⟩ = m) :=
  ⟨fun hc => gridColumns_tablet hw1 hw2 hh1 hh2 hm1 hm2 ht1 ht2 hc,
   fun hc => gridColumns_mobile hw1 hw2 hh1 hh2 hm1 hm2 ht1 ht2 hc⟩

/-- Witness for C8: a 1024-wide screen selects the tablet column count 4. -/
theorem claim8_grid_columns_spec_witness :
    getResponsiveGridColumns (JSNum.num 2) (JSNum.num 4)
      ⟨JSNum.num 1024, JSNum.num 768⟩ = 4 :=
  (claim8_grid_columns_spec 1024 768 2 4 (by norm_num) (by norm_num) (by norm_num)
    (by norm_num) (by norm_num) (by norm_num) (by norm_num) (by norm_num)).1 (by norm_num)


/-- Claim C9: on every valid width with `768 ≤ width < 1024`, `isTablet`
reports `true` (it compares against the `SMALL_TABLET` breakpoint 768) while
`getResponsiveGridColumns` still returns the mobile column count and every
width-branching sizing function takes its non-tablet branch (they all switch
only at the `TABLET` breakpoint 1024). -/
theorem claim9_tablet_breakpoint_mismatch (w h m t lb cb fb xb ib ir : ℚ)
    (hw1 : 768 ≤ w) (hw2 : w < 1024) (hh1 : 100 ≤ h) (hh2 : h ≤ 10000)
    (hm1 : 1 ≤ m) (hm2 : m ≤ 20) (ht1 : 1 ≤ t) (ht2 : t ≤ 20)
    (hlb1 : 50 ≤ lb) (hlb2 : lb ≤ 500) (hcb1 : 50 ≤ cb) (hcb2 : cb ≤ 300)
    (hfb1 : 1 ≤ fb) (hfb2 : fb ≤ 1000) (hxb1 : 100 ≤ xb) (hxb2 : xb ≤ 1000)
    (hib1 : 0 ≤ ib) (hib2 : ib ≤ 1000) (hir1 : 0 ≤ ir) (hir2 : ir ≤ 1000) :
    isTablet ⟨JSNum.num w, JSNum.num h⟩ = true ∧
    getResponsiveGridColumns (JSNum.num m) (JSNum.num t)
      ⟨JSNum.num w, JSNum.num h⟩ = m ∧
    getResponsiveLogoSize (JSNum.num lb) ⟨JSNum.num w, JSNum.num h⟩ = lb ∧
    getResponsiveIconContainerSize (JSNum.num cb) ⟨JSNum.num w, JSNum.num h⟩ = cb ∧
    getResponsiveFontSize (JSNum.num fb) ⟨JSNum.num w, JSNum.num h⟩ = fb ∧
    getResponsiveMaxWidth (JSNum.num xb) ⟨JSNum.num w, JSNum.num h⟩ =
      min (w * (85/100)) xb ∧
    getResponsiveFABPosition ⟨JSNum.undef, JSNum.num ib, JSNum.undef, JSNum.num ir⟩
      ⟨JSNum.num w, JSNum.num h⟩ = ⟨max 90 (ib + 16), max 20 (ir + 16)⟩ := by
  have hw1' : (100:ℚ) ≤ w := le_trans (by norm_num) hw1
  have hw2' : w ≤ 10000 := le_trans (le_of_lt hw2) (by norm_num)
  have h375 : (375:ℚ) < w := lt_of_lt_of_le (by norm_num) hw1
  refine ⟨?_, gridColumns_mobile hw1' hw2' hh1 hh2 hm1 hm2 ht1 ht2 hw2,
    logoSize_mid hw1' hw2' hh1 hh2 hlb1 hlb2 h375 hw2,
    iconSize_mid hw1' hw2' hh1 hh2 hcb1 hcb2 h375 hw2,
    fontSize_mid hw1' hw2' hh1 hh2 hfb1 hfb2 h375 hw2,
    maxWidth_mid hw1' hw2' hh1 hh2 hxb1 hxb2 h375 hw2,
    fabPosition_phone hw1' hw2' hh1 hh2 hib1 hib2 hir1 hir2 hw2⟩
  simp only [isTablet, getScreenDimensions_valid hw1' hw2' hh1 hh2,
    DEVICE_BREAKPOINTS.SMALL_TABLET, decide_eq_true_eq]
  exact hw1

/-- Witness for C9 at an 800×600 iPad-mini-landscape-like screen. -/
theorem claim9_tablet_breakpoint_mismatch_witness :
    isTablet ⟨JSNum.num 800, JSNum.num 600⟩ = true ∧
    getResponsiveGridColumns (JSNum.num 2) (JSNum.num 4)
      ⟨JSNum.num 800, JSNum.num 600⟩ = 2 ∧
    getResponsiveLogoSize (JSNum.num 140) ⟨JSNum.num 800, JSNum.num 600⟩ = 140 ∧
    getResponsiveIconContainerSize (JSNum.num 140) ⟨JSNum.num 800, JSNum.num 600⟩ = 140 ∧
    getResponsiveFontSize (JSNum.num 16) ⟨JSNum.num 800, JSNum.num 600⟩ = 16 ∧
    getResponsiveMaxWidth (JSNum.num 400) ⟨JSNum.num 800, JSNum.num 600⟩ =
      min (800 * (85/100)) 400 ∧
    getResponsiveFABPosition ⟨JSNum.undef, JSNum.num 34, JSNum.undef, JSNum.num 0⟩
      ⟨JSNum.num 800, JSNum.num 600⟩ = ⟨max 90 (34 + 16), max 20 (0 + 16)⟩ :=
  claim9_tablet_breakpoint_mismatch 800 600 2 4 140 140 16 400 34 0
    (by norm_num) (by norm_num) (by norm_num) (by norm_num) (by norm_num) (by norm_num)
    (by norm_num) (by norm_num) (by norm_num) (by norm_num) (by norm_num) (by norm_num)
    (by norm_num) (by norm_num) (by norm_num) (by norm_num) (by norm_num) (by norm_num)
    (by norm_num) (by norm_num)

/-- Claim C10: `getScreenDimensions` returns the platform-reported window
dimensions unchanged when both are finite numbers in `[100, 10000]`, and the
fixed fallback `{width: 414, height: 896}` whenever either reported value
fails the range validation (undefined, NaN, an infinity, or out of range);
being a total function, it never throws. -/
theorem claim10_screen_dimensions_spec :
    (∀ w h : ℚ, 100 ≤ w → w ≤ 10000 → 100 ≤ h → h ≤ 10000 →
       getScreenDimensions ⟨JSNum.num w, JSNum.num h⟩ = ⟨w, h⟩) ∧
    (∀ vw vh : JSNum,
       isOk (validateNumber vw 100 (some 10000)) = false ∨
         isOk (validateNumber vh 100 (some 10000)) = false →
       getScreenDimensions ⟨vw, vh⟩ = ⟨414, 896⟩) :=
  ⟨fun _ _ hw1 hw2 hh1 hh2 => getScreenDimensions_valid hw1 hw2 hh1 hh2,
   fun _ _ hd => getScreenDimensions_invalid (validateScreenDimensions_fails hd)⟩

/-- Witness for C10: valid 375×667 dimensions pass through; a NaN width falls
back to 414×896. -/
theorem claim10_screen_dimensions_spec_witness :
    getScreenDimensions ⟨JSNum.num 375, JSNum.num 667⟩ = ⟨375, 667⟩ ∧
    getScreenDimensions ⟨JSNum.nan, JSNum.num 667⟩ = ⟨414, 896⟩ :=
  ⟨claim10_screen_dimensions_spec.1 375 667 (by norm_num) (by norm_num) (by norm_num)
     (by norm_num),
   claim10_screen_dimensions_spec.2 JSNum.nan (JSNum.num 667) (Or.inl (by decide))⟩

end DesignSystemResponsive
